import Mathlib

/-
Verification development for the st_login_form repository.

The Python sources embedded here:
  - src/st_login_form/_helpers/auth.py   (_validate_password, _set_authenticated,
    _reset_authentication, _Authenticator.{generate_pwd_hash, verify_password,
    rehash_pwd_in_db})
  - src/st_login_form/_helpers/forms.py  (_get_validated_inputs, _handle_create_account,
    _handle_login)
  - src/st_login_form/__init__.py        (validate_password, login_success, Authenticator,
    the login_form create/login/guest branches)

External collaborators (the argon2 library, the Supabase/SQL user store and the
Streamlit session_state) are not part of the repository; they are modelled from
the spec's descriptions of their contracts (spec sections 3, 4.2 and 6), with
executable definitions so that concrete runs evaluate.
-/

/-- Python `s.startswith(pre)` is a code-point prefix test; `beginsWith pre s`
decides whether `pre` is a prefix of `s` (both as code-point lists). -/
def beginsWith : List Char → List Char → Bool
  | [], _ => true
  | _ :: _, [] => false
  | a :: as, b :: bs => a == b && beginsWith as bs

/-- Python `s.startswith(pre)`. -/
def pyStartsWith (s pre : String) : Bool :=
  beginsWith pre.data s.data

/-- The self-describing tag of hashes produced by the modelled hasher
(`"$argon2id$"` in the source scheme). -/
def argonTag : String := "$argon2id$"

/-- Split a code-point list at the first `'$'`: `some (before, after)` when a
`'$'` occurs, `none` otherwise. Used by the modelled hash decoder. -/
def splitFirstDollar : List Char → Option (List Char × List Char)
  | [] => none
  | c :: cs =>
    if c = '$' then some ([], cs)
    else
      match splitFirstDollar cs with
      | some (a, b) => some (c :: a, b)
      | none => none

/-- Modelled from the spec: the argon2 library's salted hash encoder, absent from
src/. Spec 4.2: a "tagged hash" is self-describing — its textual prefix
identifies the algorithm and parameters. The model encodes the cost parameters
and the salt in unary between `'$'` separators, followed by the enrolled
secret, so that verification and parameter extraction are decidable. -/
def argonHash (params salt : Nat) (password : String) : String :=
  ⟨argonTag.data ++ List.replicate params 'v' ++ '$' :: List.replicate salt 's'
    ++ '$' :: password.data⟩

/-- Modelled from the spec: the argon2 library's hash decoder (`extract_parameters`
plus secret recovery for the model). Returns the encoded cost parameters, the
salt and the enrolled secret, or `none` for a malformed hash. -/
def parseArgon (hashed : String) : Option (Nat × Nat × String) :=
  if beginsWith argonTag.data hashed.data then
    match splitFirstDollar (hashed.data.drop argonTag.data.length) with
    | some (ps, rest) =>
      if ps.all (fun c => c == 'v') then
        match splitFirstDollar rest with
        | some (ss, pw) =>
          if ss.all (fun c => c == 's') then some (ps.length, ss.length, ⟨pw⟩)
          else none
        | none => none
      else none
    | none => none
  else none

/-- Kinds of exceptions the modelled argon2 `verify` can raise. Both kinds are
subclasses of `argon2.exceptions.VerificationError`: a mismatch raises
`VerifyMismatchError`, and a hash the library cannot decode fails inside the
low-level verifier with a decoding `VerificationError` (spec 4.2 and 7:
"verification failure (mismatch or malformed hash)"). -/
inductive ArgonErr
  | verifyMismatch
  | decodeFail
deriving DecidableEq, Repr

/-- Every modelled argon2 verification exception is a `VerificationError`
(the class caught by the repository's `verify_password`). -/
def isVerificationError : ArgonErr → Bool
  | .verifyMismatch => true
  | .decodeFail => true

/-- Modelled from the spec: the argon2 library's `PasswordHasher.verify`, absent
from src/. Spec 4.2: succeeds (returning `True`) iff the plaintext, hashed with
the parameters encoded in the tagged hash, matches; a mismatch or a malformed
hash raises (never returns `False`). -/
def argonVerifyRaw (hashed plain : String) : Except ArgonErr Bool :=
  match parseArgon hashed with
  | none => .error .decodeFail
  | some (_, _, secret) => if secret = plain then .ok true else .error .verifyMismatch

/-- Whether `plain` is the secret enrolled in `hashed` (false as well when
`hashed` is malformed): the mathematical matching relation of the model. -/
def argonMatches (hashed plain : String) : Bool :=
  match parseArgon hashed with
  | some (_, _, secret) => secret == plain
  | none => false

/-- `_Authenticator.verify_password` (src/st_login_form/_helpers/auth.py:67-82,
identical to `Authenticator.verify_password` in __init__.py:41-47):

    try:
        if self.verify(hashed_password, plain_password):
            return True
    except argon2.exceptions.VerificationError:
        return False

The result is `.ok r` when the Python function returns (`r = some true` for
`True`, `some false` for `False`, `none` for the implicit `None` fall-through),
and `.error e` when an exception escapes the boundary. -/
def verify_password (hashed plain : String) : Except ArgonErr (Option Bool) :=
  match argonVerifyRaw hashed plain with
  | .ok true => .ok (some true)
  | .ok false => .ok none
  | .error e => if isVerificationError e then .ok (some false) else .error e

/-- The value `verify_password` hands to its caller; by
`verify_password` never raising in the model, the exceptional case is dead. -/
def verifyReturn (hashed plain : String) : Option Bool :=
  match verify_password hashed plain with
  | .ok r => r
  | .error _ => none

/-- Modelled from the spec: the argon2 library's `check_needs_rehash`, absent
from src/. Spec 4.2: true iff the hash was produced with parameters different
from the hasher's current configured parameters. -/
def check_needs_rehash (currentParams : Nat) (hashed : String) : Bool :=
  match parseArgon hashed with
  | some (ps, _, _) => ps != currentParams
  | none => true

/-- `_Authenticator.generate_pwd_hash` (src/st_login_form/_helpers/auth.py:55-65,
identical to __init__.py:37-39):

    return password if password.startswith("$argon2id$") else self.hash(password)

The library's `self.hash` draws a fresh random salt; the model threads the salt
(and the hasher's configured cost parameters) explicitly. -/
def generate_pwd_hash (params salt : Nat) (password : String) : String :=
  if pyStartsWith password argonTag then password else argonHash params salt password

/-- `_validate_password` (src/st_login_form/_helpers/auth.py:8-28, identical to
`validate_password` in __init__.py:13-24):

    required_chars = [upper?, lower?, digit?, special?]
    return len(password) >= min_length and all(check(password) for check in required_chars)
-/
def _validate_password (password : String) (minLength : Nat) (specialChars : String) : Bool :=
  let requiredChars : List (String → Bool) :=
    [ fun s => s.data.any (fun x => x.isUpper),
      fun s => s.data.any (fun x => x.isLower),
      fun s => s.data.any (fun x => x.isDigit),
      fun s => s.data.any (fun x => specialChars.data.contains x) ]
  decide (minLength ≤ password.data.length) && requiredChars.all (fun check => check password)

/-- Default `special_chars` argument of `_validate_password`. -/
def defaultSpecialChars : String := "@$!%*?&_^#- "

/-- One credential row of the user store (spec section 3: `username`,
`password_hash`, optional `role`). -/
structure Row where
  username : String
  password : String
  role : Option String
deriving DecidableEq, Repr

/-- Modelled from the spec: the store's duplicate-username error message
(spec 3: "create-account must fail if the username already exists (enforced by
the store's uniqueness constraint; the core surfaces the resulting error)"). -/
def dupKeyMsg (username : String) : String :=
  "duplicate key value violates unique constraint: " ++ username

/-- Modelled from the spec: the store's update-by-username operation
(spec 6: `update_password(table, username_col, password_col, username, new_hash)`;
the Supabase call `.update({password_col: h}).match({username_col: u})` updates
every row whose username column matches). -/
def dbUpdate (db : List Row) (username hashed : String) : List Row :=
  db.map (fun r => if r.username == username then { r with password := hashed } else r)

/-- Modelled from the spec: the store's insert operation
(spec 6: `insert(...) -> success | error(duplicate | other)`), enforcing the
username uniqueness constraint of spec section 3. -/
def dbInsert (db : List Row) (username hashed : String) (role : Option String) :
    Except String (List Row) :=
  if db.any (fun r => r.username == username) then .error (dupKeyMsg username)
  else .ok (db ++ [{ username := username, password := hashed, role := role }])

/-- The client handle the flows talk to: the table contents plus injectable
store faults (spec 7: "Store error (connectivity, constraint violation,
malformed query)"). `selectError`/`insertError` model the select or insert
call raising with the given message. -/
structure Client where
  db : List Row
  selectError : Option String
  insertError : Option String
deriving DecidableEq, Repr

/-- The insert as issued by `_handle_create_account`: an injected store fault
raises its message, otherwise the uniqueness-checked insert runs. -/
def clientInsert (cl : Client) (username hashed : String) (role : Option String) :
    Except String (List Row) :=
  match cl.insertError with
  | some m => .error m
  | none => dbInsert cl.db username hashed role

/-- `st.session_state` slice owned by the _helpers flows: `authenticated` and
`username` (spec section 3, AuthSession). -/
structure Session where
  authenticated : Bool
  username : Option String
deriving DecidableEq, Repr

/-- `_set_authenticated` (src/st_login_form/_helpers/auth.py:31-39). -/
def _set_authenticated (username : Option String) : Session :=
  { authenticated := true, username := username }

/-- `_reset_authentication` (src/st_login_form/_helpers/auth.py:42-47). -/
def _reset_authentication : Session :=
  { authenticated := false, username := none }

/-- Store and hasher calls issued during one flow invocation, in order. -/
inductive Ev
  | select (username : String)
  | insert (username hashed : String)
  | update (username hashed : String)
  | verifyCall (hashed plain : String) (result : Option Bool)
  | rehashCheck (hashed : String)
deriving DecidableEq, Repr

/-- Whether an event is the `check_needs_rehash` call. -/
def Ev.isRehashCheck : Ev → Bool
  | .rehashCheck _ => true
  | _ => false

/-- Observable outcome of one flow invocation: the session afterwards, the
table afterwards, the `st.error` message shown (if any), the calls issued,
and whether the run ended in `st.rerun()`. -/
structure FlowResult where
  session : Session
  db : List Row
  message : Option String
  events : List Ev
  rerun : Bool
deriving DecidableEq, Repr

/-- The `st.error` text of `_get_validated_inputs`
(src/st_login_form/_helpers/forms.py:104):
`f"Please fill in all fields: \x7b', '.join(missing)\x7d"`. -/
def missingFieldsMsg (missing : List String) : String :=
  "Please fill in all fields: " ++ String.intercalate ", " missing

/-- `_Authenticator.rehash_pwd_in_db` (src/st_login_form/_helpers/auth.py:84-99):
hash the given value, write it back by username, return the hash. The model
also returns the updated table. -/
def rehash_pwd_in_db (params salt : Nat) (password username : String) (db : List Row) :
    String × List Row :=
  let hashed := generate_pwd_hash params salt password
  (hashed, dbUpdate db username hashed)

/-- `_handle_login` (src/st_login_form/_helpers/forms.py:154-216). `submitted`
is the form-submit click; a disabled button (session already authenticated)
never fires, so such runs are no-ops. `salt1` is the salt the library would
draw for the legacy migration hash, `salt2` the one for the rehash upgrade;
`params` is the hasher's configured cost parameters. -/
def _handle_login (params salt1 salt2 : Nat) (sess : Session) (cl : Client)
    (errorMessage : String) (submitted : Bool) (username password : String) : FlowResult :=
  if !submitted || sess.authenticated then ⟨sess, cl.db, none, [], false⟩
  else
    let missing := (if username == "" then ["username"] else [])
      ++ (if password == "" then ["password"] else [])
    if !missing.isEmpty then ⟨sess, cl.db, some (missingFieldsMsg missing), [], false⟩
    else
      match cl.selectError with
      | some m => ⟨_reset_authentication, cl.db, some m, [.select username], false⟩
      | none =>
        match cl.db.filter (fun r => r.username == username) with
        | [] => ⟨_reset_authentication, cl.db, some errorMessage, [.select username], false⟩
        | r :: _ =>
          let dbPassword :=
            if pyStartsWith r.password argonTag then r.password
            else (rehash_pwd_in_db params salt1 r.password username cl.db).1
          let db1 :=
            if pyStartsWith r.password argonTag then cl.db
            else (rehash_pwd_in_db params salt1 r.password username cl.db).2
          let evs1 := [Ev.select username]
            ++ (if pyStartsWith r.password argonTag then [] else [Ev.update username dbPassword])
          if verifyReturn dbPassword password == some true then
            if check_needs_rehash params dbPassword then
              ⟨_set_authenticated (some username),
                (rehash_pwd_in_db params salt2 password username db1).2, none,
                evs1 ++ [Ev.verifyCall dbPassword password (some true),
                  Ev.rehashCheck dbPassword,
                  Ev.update username (rehash_pwd_in_db params salt2 password username db1).1],
                true⟩
            else
              ⟨_set_authenticated (some username), db1, none,
                evs1 ++ [Ev.verifyCall dbPassword password (some true),
                  Ev.rehashCheck dbPassword],
                true⟩
          else
            ⟨_reset_authentication, db1, some errorMessage,
              evs1 ++ [Ev.verifyCall dbPassword password (verifyReturn dbPassword password)],
              false⟩

/-- `_handle_create_account` (src/st_login_form/_helpers/forms.py:109-151).
Field order of the rendered form: username, password, retype. `salt` is the
salt the library would draw for the new hash. -/
def _handle_create_account (params salt : Nat) (sess : Session) (cl : Client)
    (constrainPassword : Bool) (passwordFailMessage passwordMismatchMessage : String)
    (submitted : Bool) (username password retype : String) : FlowResult :=
  if !submitted || sess.authenticated then ⟨sess, cl.db, none, [], false⟩
  else
    let missing := (if username == "" then ["username"] else [])
      ++ (if password == "" then ["password"] else [])
      ++ (if retype == "" then ["retype"] else [])
    if !missing.isEmpty then ⟨sess, cl.db, some (missingFieldsMsg missing), [], false⟩
    else if password != retype then ⟨sess, cl.db, some passwordMismatchMessage, [], false⟩
    else if constrainPassword && !_validate_password password 8 defaultSpecialChars then
      ⟨sess, cl.db, some passwordFailMessage, [], false⟩
    else
      let hashed := generate_pwd_hash params salt password
      match clientInsert cl username hashed none with
      | .error m => ⟨_reset_authentication, cl.db, some m, [.insert username hashed], false⟩
      | .ok db2 => ⟨_set_authenticated (some username), db2, none, [.insert username hashed], true⟩

/-- Scan of an event trace: true iff every `rehashCheck` call is preceded by a
`verifyCall` that returned `True`. `seen` carries whether such a verification
has already occurred. -/
def rehashChecksGated : List Ev → Bool → Bool
  | [], _ => true
  | .verifyCall _ _ r :: rest, seen => rehashChecksGated rest (seen || (r == some true))
  | .rehashCheck _ :: rest, seen => seen && rehashChecksGated rest seen
  | _ :: rest, seen => rehashChecksGated rest seen

/-- Python `s.lower()` on code points (ASCII case mapping, matching
`Char.toLower`). -/
def pyLower (s : String) : String :=
  ⟨s.data.map Char.toLower⟩

/-- `st.session_state` slice owned by `login_form` in __init__.py:
`authenticated`, `username`, `authenticated_role` (initialised `False`, `None`,
`None` at __init__.py:202-209). -/
structure SessionR where
  authenticated : Bool
  username : Option String
  authenticated_role : Option String
deriving DecidableEq, Repr

/-- The initial (unauthenticated) session of __init__.py:202-209. -/
def initSessionR : SessionR :=
  { authenticated := false, username := none, authenticated_role := none }

/-- `login_success` (src/st_login_form/__init__.py:27-31): sets
`authenticated`/`username`; lowercases and stores the role only when one is
passed, otherwise leaves `authenticated_role` untouched. -/
def login_success (s : SessionR) (username : String) (role : Option String) : SessionR :=
  { authenticated := true
    username := some username
    authenticated_role :=
      match role with
      | some r => some (pyLower r)
      | none => s.authenticated_role }

/-- The `login_form` options that matter to the modelled state machine:
hasher cost parameters, `retrieve_role`, `role_default`, `constrain_password`. -/
structure ConfigR where
  params : Nat
  retrieveRole : Bool
  roleDefault : String
  constrainPassword : Bool
deriving Repr

/-- Whole-system state of one `login_form` interaction: the session and the
user table. -/
structure StateR where
  session : SessionR
  db : List Row
deriving DecidableEq, Repr

/-- User-interface events a rendered `login_form` can receive: a login submit,
a create-account submit (with the salt the hasher would draw), or a guest
click. -/
inductive UiEvent
  | loginSubmit (username password : String) (salt1 salt2 : Nat)
  | createSubmit (username password : String) (salt : Nat)
  | guestClick

/-- One processed event of `login_form` (src/st_login_form/__init__.py:233-426).
All three submit controls are rendered with `disabled=st.session_state["authenticated"]`,
so an authenticated session processes nothing. The login branch (388-412):
lookup by username; absent -> error + `authenticated = False`; present -> migrate
a non-tagged stored value via `rehash_pwd_in_db`, verify, on success
`login_success` (with the lowercased role when `retrieve_role`) and the
opportunistic `check_needs_rehash` upgrade, on failure error + `authenticated = False`.
The create branch (252-320): password-policy gate (`st.stop()` on failure),
insert the hash (with the lowercased `role_default` when `retrieve_role`);
a store error surfaces and sets `authenticated = False`; success runs
`login_success(username)`. The guest branch (415-426) sets the guest session. -/
def loginFormStep (cfg : ConfigR) (st : StateR) (ev : UiEvent) : StateR :=
  if st.session.authenticated then st
  else
    match ev with
    | .guestClick =>
      ⟨{ authenticated := true, username := none, authenticated_role := some "guest" }, st.db⟩
    | .createSubmit username password salt =>
      if cfg.constrainPassword && !_validate_password password 8 defaultSpecialChars then st
      else
        let hashed := generate_pwd_hash cfg.params salt password
        match dbInsert st.db username hashed
            (if cfg.retrieveRole then some (pyLower cfg.roleDefault) else none) with
        | .error _ => ⟨{ st.session with authenticated := false }, st.db⟩
        | .ok db2 => ⟨login_success st.session username none, db2⟩
    | .loginSubmit username password salt1 salt2 =>
      match st.db.filter (fun r => r.username == username) with
      | [] => ⟨{ st.session with authenticated := false }, st.db⟩
      | r :: _ =>
        let dbPassword :=
          if pyStartsWith r.password argonTag then r.password
          else generate_pwd_hash cfg.params salt1 r.password
        let db1 :=
          if pyStartsWith r.password argonTag then st.db
          else dbUpdate st.db username dbPassword
        if verifyReturn dbPassword password == some true then
          let role := if cfg.retrieveRole then some (pyLower (r.role.getD "")) else none
          let s1 := login_success st.session username role
          if check_needs_rehash cfg.params dbPassword then
            ⟨s1, dbUpdate db1 username (generate_pwd_hash cfg.params salt2 password)⟩
          else ⟨s1, db1⟩
        else ⟨{ st.session with authenticated := false }, db1⟩

/-- States of one `login_form` interaction reachable from the initial session
over an arbitrary initial table contents. -/
inductive ReachableR (cfg : ConfigR) : StateR → Prop
  | init (db : List Row) : ReachableR cfg ⟨initSessionR, db⟩
  | step (s : StateR) (ev : UiEvent) : ReachableR cfg s → ReachableR cfg (loginFormStep cfg s ev)

theorem beginsWith_append (l t : List Char) : beginsWith l (l ++ t) = true := by
  induction l with
  | nil => rfl
  | cons a as ih => simp [beginsWith, ih]

theorem splitFirstDollar_append (a b : List Char) (h : ∀ c ∈ a, c ≠ '$') :
    splitFirstDollar (a ++ '$' :: b) = some (a, b) := by
  induction a with
  | nil => simp [splitFirstDollar]
  | cons c cs ih =>
    have hc : c ≠ '$' := h c (by simp)
    rw [List.cons_append, splitFirstDollar, if_neg hc, ih (fun x hx => h x (by simp [hx]))]

theorem parseArgon_argonHash (params salt : Nat) (p : String) :
    parseArgon (argonHash params salt p) = some (params, salt, p) := by
  have hv : ∀ c ∈ List.replicate params 'v', c ≠ '$' := by
    intro c hc
    rw [List.mem_replicate] at hc
    simp [hc.2]
  have hs : ∀ c ∈ List.replicate salt 's', c ≠ '$' := by
    intro c hc
    rw [List.mem_replicate] at hc
    simp [hc.2]
  unfold parseArgon argonHash
  simp only [List.append_assoc, List.cons_append]
  rw [beginsWith_append, if_pos rfl, List.drop_left, splitFirstDollar_append _ _ hv]
  simp [splitFirstDollar_append _ _ hs, List.all_eq_true, List.mem_replicate]

theorem verifyReturn_spec (h p : String) : verifyReturn h p = some (argonMatches h p) := by
  unfold verifyReturn verify_password argonVerifyRaw argonMatches
  match hp : parseArgon h with
  | none => simp [isVerificationError]
  | some (a, b, secret) =>
    by_cases hs : secret = p
    · simp [hs]
    · simp [hs, isVerificationError]

theorem verify_password_never_raises (h p : String) :
    verify_password h p = .ok (verifyReturn h p) := by
  unfold verifyReturn verify_password argonVerifyRaw
  match hp : parseArgon h with
  | none => simp [isVerificationError]
  | some (a, b, secret) =>
    by_cases hs : secret = p
    · simp [hs]
    · simp [hs, isVerificationError]

theorem argonMatches_argonHash (params salt : Nat) (p q : String) :
    argonMatches (argonHash params salt p) q = (p == q) := by
  unfold argonMatches
  rw [parseArgon_argonHash]

theorem verifyReturn_argonHash (params salt : Nat) (p : String) :
    verifyReturn (argonHash params salt p) p = some true := by
  rw [verifyReturn_spec, argonMatches_argonHash]
  simp

theorem check_needs_rehash_argonHash (params salt : Nat) (p : String) :
    check_needs_rehash params (argonHash params salt p) = false := by
  unfold check_needs_rehash
  rw [parseArgon_argonHash]
  simp

theorem pyStartsWith_argonHash (params salt : Nat) (p : String) :
    pyStartsWith (argonHash params salt p) argonTag = true := by
  unfold pyStartsWith argonHash
  simp only [List.append_assoc, List.cons_append]
  exact beginsWith_append _ _

theorem argonHash_ne_untagged (params salt : Nat) (p : String)
    (h : pyStartsWith p argonTag = false) : argonHash params salt p ≠ p := by
  intro he
  rw [← he, pyStartsWith_argonHash] at h
  exact absurd h (by simp)

theorem generate_pwd_hash_untagged (params salt : Nat) (p : String)
    (h : pyStartsWith p argonTag = false) :
    generate_pwd_hash params salt p = argonHash params salt p := by
  unfold generate_pwd_hash
  rw [h]
  simp

theorem filter_dbUpdate (db : List Row) (u h : String) :
    (dbUpdate db u h).filter (fun x => x.username == u)
      = (db.filter (fun x => x.username == u)).map (fun r => { r with password := h }) := by
  induction db with
  | nil => rfl
  | cons r rest ih =>
    unfold dbUpdate at ih ⊢
    by_cases hr : r.username = u
    · simp [List.filter_cons, hr] at ih ⊢
      exact ih
    · simp [List.filter_cons, hr] at ih ⊢
      exact ih

/-- C2: for every pair (hashed_password, plain_password), `verify_password`
returns (never raises past its boundary: the result is always `.ok`) the value
`True` iff the plaintext matches the hash, and `False` on any verification
failure — both on a mismatch and on a malformed stored hash. -/
theorem verify_password_boundary (h p : String) :
    verify_password h p = .ok (some (argonMatches h p)) := by
  unfold verify_password argonVerifyRaw argonMatches
  match hp : parseArgon h with
  | none => simp [isVerificationError]
  | some (a, b, secret) =>
    by_cases hs : secret = p
    · simp [hs]
    · simp [hs, isVerificationError]

/-- C4: `generate_pwd_hash` is idempotent once tagged —
`generate_pwd_hash (generate_pwd_hash p) = generate_pwd_hash p` (for the salts
the library would draw at each call); an input already carrying the
`"$argon2id$"` tag is returned unchanged, and any other input gets a fresh
tagged hash. -/
theorem generate_pwd_hash_idempotent (params1 salt1 params2 salt2 : Nat) (p : String) :
    generate_pwd_hash params2 salt2 (generate_pwd_hash params1 salt1 p)
        = generate_pwd_hash params1 salt1 p
      ∧ (pyStartsWith p argonTag = true → generate_pwd_hash params1 salt1 p = p)
      ∧ (pyStartsWith p argonTag = false →
          generate_pwd_hash params1 salt1 p = argonHash params1 salt1 p) := by
  refine ⟨?_, ?_, ?_⟩
  · by_cases hp : pyStartsWith p argonTag = true
    · simp [generate_pwd_hash, hp]
    · simp only [Bool.not_eq_true] at hp
      simp [generate_pwd_hash, hp, pyStartsWith_argonHash]
  · intro hp
    simp [generate_pwd_hash, hp]
  · intro hp
    simp [generate_pwd_hash, hp]

/-- C4 witness: concrete evaluations of the idempotence and the no-op case. -/
theorem generate_pwd_hash_idempotent_witness :
    generate_pwd_hash 3 2 (generate_pwd_hash 3 1 "Abc12345!") = generate_pwd_hash 3 1 "Abc12345!"
      ∧ generate_pwd_hash 3 1 "$argon2id$vvv$ss$x" = "$argon2id$vvv$ss$x" :=
  ⟨(generate_pwd_hash_idempotent 3 1 3 2 "Abc12345!").1,
    (generate_pwd_hash_idempotent 3 1 3 2 "$argon2id$vvv$ss$x").2.1 (by decide)⟩

/-- C5: `_validate_password` returns true iff the password's length is at least
`minLength` and it contains at least one uppercase letter, one lowercase
letter, one digit, and one character of the allowed special-character set.
(It is a plain function of its arguments — the embedding is a pure `def`.) -/
theorem validate_password_iff (password : String) (minLength : Nat) (specialChars : String) :
    _validate_password password minLength specialChars = true ↔
      (minLength ≤ password.data.length
        ∧ (∃ c ∈ password.data, c.isUpper = true)
        ∧ (∃ c ∈ password.data, c.isLower = true)
        ∧ (∃ c ∈ password.data, c.isDigit = true)
        ∧ (∃ c ∈ password.data, c ∈ specialChars.data)) := by
  unfold _validate_password
  simp [List.any_eq_true]

/-- C1: on a login submission whose row (found by username) stores a value
without the `"$argon2id$"` tag, the stored value is hashed and written back via
the update-by-username operation before verification of the submitted password
runs, and the verification runs against that newly produced hash (see the event
trace: the `update` precedes the `verifyCall`, whose hash argument is the new
hash); consequently one successful login attempt against the legacy credential
leaves the session authenticated and the row tagged and verifying against the
original plaintext. -/
theorem legacy_login_rehash_before_verify
    (params salt1 salt2 : Nat) (sess : Session) (cl : Client)
    (errorMessage username : String) (r : Row)
    (hauth : sess.authenticated = false)
    (hsel : cl.selectError = none)
    (hrow : cl.db.filter (fun x => x.username == username) = [r])
    (hleg : pyStartsWith r.password argonTag = false)
    (hu : username ≠ "") (hp : r.password ≠ "") :
    (_handle_login params salt1 salt2 sess cl errorMessage true username r.password).session
        = _set_authenticated (some username)
      ∧ (_handle_login params salt1 salt2 sess cl errorMessage true username r.password).db.filter
          (fun x => x.username == username)
        = [{ r with password := argonHash params salt1 r.password }]
      ∧ pyStartsWith (argonHash params salt1 r.password) argonTag = true
      ∧ verifyReturn (argonHash params salt1 r.password) r.password = some true
      ∧ (_handle_login params salt1 salt2 sess cl errorMessage true username r.password).events
        = [Ev.select username, Ev.update username (argonHash params salt1 r.password),
            Ev.verifyCall (argonHash params salt1 r.password) r.password (some true),
            Ev.rehashCheck (argonHash params salt1 r.password)] := by
  unfold _handle_login
  simp [hauth, hsel, hrow, hleg, hu, hp, rehash_pwd_in_db, generate_pwd_hash, hleg,
    verifyReturn_argonHash, check_needs_rehash_argonHash, pyStartsWith_argonHash,
    filter_dbUpdate, _set_authenticated]

/-- C1 witness: the spec's scenario — row `("alice", "plaintext123")`, login
with the matching plaintext — evaluated concretely. -/
theorem legacy_login_rehash_before_verify_witness :
    (_handle_login 3 1 2 _reset_authentication
        ⟨[{ username := "alice", password := "plaintext123", role := none }], none, none⟩
        "wrong" true "alice" "plaintext123").session = _set_authenticated (some "alice") :=
  (legacy_login_rehash_before_verify 3 1 2 _reset_authentication
      ⟨[{ username := "alice", password := "plaintext123", role := none }], none, none⟩
      "wrong" "alice" { username := "alice", password := "plaintext123", role := none }
      rfl rfl (by decide) (by decide) (by decide) (by decide)).1

/-- C3: the two login failure branches — username not found in the store, and
username found but password verification failed — emit the identical configured
error message, so the response does not reveal whether the submitted username
exists. -/
theorem login_failure_message_uniform
    (params salt1 salt2 : Nat) (sess1 sess2 : Session) (cl1 cl2 : Client)
    (errorMessage u1 p1 u2 p2 : String) (r : Row)
    (hauth1 : sess1.authenticated = false) (hauth2 : sess2.authenticated = false)
    (hsel1 : cl1.selectError = none) (hsel2 : cl2.selectError = none)
    (habsent : cl1.db.filter (fun x => x.username == u1) = [])
    (hfound : cl2.db.filter (fun x => x.username == u2) = [r])
    (hu1 : u1 ≠ "") (hp1 : p1 ≠ "") (hu2 : u2 ≠ "") (hp2 : p2 ≠ "")
    (hfail : verifyReturn (if pyStartsWith r.password argonTag then r.password
        else (rehash_pwd_in_db params salt1 r.password u2 cl2.db).1) p2 ≠ some true) :
    (_handle_login params salt1 salt2 sess1 cl1 errorMessage true u1 p1).message
        = some errorMessage
      ∧ (_handle_login params salt1 salt2 sess2 cl2 errorMessage true u2 p2).message
        = some errorMessage
      ∧ (_handle_login params salt1 salt2 sess1 cl1 errorMessage true u1 p1).message
        = (_handle_login params salt1 salt2 sess2 cl2 errorMessage true u2 p2).message := by
  have h1 : (_handle_login params salt1 salt2 sess1 cl1 errorMessage true u1 p1).message
      = some errorMessage := by
    unfold _handle_login
    simp [hauth1, hsel1, habsent, hu1, hp1]
  have h2 : (_handle_login params salt1 salt2 sess2 cl2 errorMessage true u2 p2).message
      = some errorMessage := by
    unfold _handle_login
    by_cases htag : pyStartsWith r.password argonTag
    · rw [htag] at hfail
      simp at hfail
      simp [hauth2, hsel2, hfound, hu2, hp2, htag, hfail]
    · simp only [Bool.not_eq_true] at htag
      rw [htag] at hfail
      simp at hfail
      simp [hauth2, hsel2, hfound, hu2, hp2, htag, hfail]
  exact ⟨h1, h2, by rw [h1, h2]⟩

/-- C3 witness: unknown username versus known-username-wrong-password, same
emitted message. -/
theorem login_failure_message_uniform_witness :
    (_handle_login 3 1 2 _reset_authentication ⟨[], none, none⟩ "wrong" true "bob" "pw").message
      = (_handle_login 3 1 2 _reset_authentication
          ⟨[{ username := "alice", password := "plaintext123", role := none }], none, none⟩
          "wrong" true "alice" "other").message :=
  (login_failure_message_uniform 3 1 2 _reset_authentication _reset_authentication
      ⟨[], none, none⟩
      ⟨[{ username := "alice", password := "plaintext123", role := none }], none, none⟩
      "wrong" "bob" "pw" "alice" "other"
      { username := "alice", password := "plaintext123", role := none }
      rfl rfl rfl rfl (by decide) (by decide) (by decide) (by decide) (by decide) (by decide)
      (by decide)).2.2

/-- C10: a login submission against a row whose stored value lacks the
`"$argon2id$"` tag overwrites that row's password column with the tagged hash
of the stored value even when the submitted password then fails verification:
the failed, unauthenticated attempt still mutates the credential store. -/
theorem failed_legacy_login_mutates_db
    (params salt1 salt2 : Nat) (sess : Session) (cl : Client)
    (errorMessage username password : String) (r : Row)
    (hauth : sess.authenticated = false)
    (hsel : cl.selectError = none)
    (hrow : cl.db.filter (fun x => x.username == username) = [r])
    (hleg : pyStartsWith r.password argonTag = false)
    (hu : username ≠ "") (hp : password ≠ "")
    (hfail : verifyReturn (argonHash params salt1 r.password) password ≠ some true) :
    (_handle_login params salt1 salt2 sess cl errorMessage true username password).session
        = _reset_authentication
      ∧ (_handle_login params salt1 salt2 sess cl errorMessage true username password).message
        = some errorMessage
      ∧ (_handle_login params salt1 salt2 sess cl errorMessage true username password).db.filter
          (fun x => x.username == username)
        = [{ r with password := argonHash params salt1 r.password }]
      ∧ pyStartsWith (argonHash params salt1 r.password) argonTag = true
      ∧ argonHash params salt1 r.password ≠ r.password := by
  have hne := argonHash_ne_untagged params salt1 r.password hleg
  unfold _handle_login
  simp [hauth, hsel, hrow, hleg, hu, hp, rehash_pwd_in_db, generate_pwd_hash,
    hfail, filter_dbUpdate, pyStartsWith_argonHash, hne]

/-- C10 witness: failed login (`"badpw"`) against the legacy row
`("alice", "plaintext123")` leaves the session unauthenticated yet rewrites the
row to the tagged hash. -/
theorem failed_legacy_login_mutates_db_witness :
    (_handle_login 3 1 2 _reset_authentication
        ⟨[{ username := "alice", password := "plaintext123", role := none }], none, none⟩
        "wrong" true "alice" "badpw").session = _reset_authentication
      ∧ (_handle_login 3 1 2 _reset_authentication
          ⟨[{ username := "alice", password := "plaintext123", role := none }], none, none⟩
          "wrong" true "alice" "badpw").db.filter (fun x => x.username == "alice")
        = [{ username := "alice", password := argonHash 3 1 "plaintext123", role := none }] :=
  ⟨(failed_legacy_login_mutates_db 3 1 2 _reset_authentication
      ⟨[{ username := "alice", password := "plaintext123", role := none }], none, none⟩
      "wrong" "alice" "badpw" { username := "alice", password := "plaintext123", role := none }
      rfl rfl (by decide) (by decide) (by decide) (by decide) (by decide)).1,
    (failed_legacy_login_mutates_db 3 1 2 _reset_authentication
      ⟨[{ username := "alice", password := "plaintext123", role := none }], none, none⟩
      "wrong" "alice" "badpw" { username := "alice", password := "plaintext123", role := none }
      rfl rfl (by decide) (by decide) (by decide) (by decide) (by decide)).2.2.1⟩

/-- C9: in every execution of the login flow, the `check_needs_rehash` call is
gated behind a `verify_password` call that returned `True` (scan of the issued
call trace), and no verification-failure execution — indeed no execution that
ends unauthenticated — ever issues a `check_needs_rehash` call. -/
theorem rehash_check_only_after_verify
    (params salt1 salt2 : Nat) (sess : Session) (cl : Client)
    (errorMessage : String) (submitted : Bool) (username password : String) :
    rehashChecksGated
        (_handle_login params salt1 salt2 sess cl errorMessage submitted username password).events
        false = true
      ∧ ((_handle_login params salt1 salt2 sess cl errorMessage submitted
            username password).session.authenticated = false →
          (_handle_login params salt1 salt2 sess cl errorMessage submitted
            username password).events.all (fun e => !e.isRehashCheck) = true) := by
  unfold _handle_login
  constructor
  all_goals repeat' split
  all_goals simp only []
  all_goals repeat' split
  all_goals simp [rehashChecksGated, Ev.isRehashCheck, _set_authenticated,
    _reset_authentication]

/-- C9 witness: a failing login run — the trace scan passes and the trace
contains no `check_needs_rehash` call. -/
theorem rehash_check_only_after_verify_witness :
    rehashChecksGated
        (_handle_login 3 1 2 _reset_authentication ⟨[], none, none⟩ "wrong" true "bob" "pw").events
        false = true
      ∧ (_handle_login 3 1 2 _reset_authentication ⟨[], none, none⟩
          "wrong" true "bob" "pw").events.all (fun e => !e.isRehashCheck) = true :=
  ⟨(rehash_check_only_after_verify 3 1 2 _reset_authentication ⟨[], none, none⟩
      "wrong" true "bob" "pw").1,
    (rehash_check_only_after_verify 3 1 2 _reset_authentication ⟨[], none, none⟩
      "wrong" true "bob" "pw").2 (by decide)⟩

/-- C8: a submission that fails local validation — an empty username or
password field on login; an empty username, password or retype field, a
password-confirmation mismatch, or (when enforced) a password-policy violation
on create-account — is blocked before any store call: the issued-call trace is
empty and session and table are unchanged. -/
theorem local_validation_blocks_store_calls
    (params salt1 salt2 salt : Nat) (sess csess : Session) (cl ccl : Client)
    (errorMessage pfm pmm : String) (constrain : Bool)
    (lsub csub : Bool) (lu lp cu cp cr : String) :
    ((lu = "" ∨ lp = "") →
      (_handle_login params salt1 salt2 sess cl errorMessage lsub lu lp).events = []
        ∧ (_handle_login params salt1 salt2 sess cl errorMessage lsub lu lp).session = sess
        ∧ (_handle_login params salt1 salt2 sess cl errorMessage lsub lu lp).db = cl.db)
    ∧ ((cu = "" ∨ cp = "" ∨ cr = "" ∨ cp ≠ cr
          ∨ (constrain = true ∧ _validate_password cp 8 defaultSpecialChars = false)) →
      (_handle_create_account params salt csess ccl constrain pfm pmm csub cu cp cr).events = []
        ∧ (_handle_create_account params salt csess ccl constrain pfm pmm csub cu cp cr).session
          = csess
        ∧ (_handle_create_account params salt csess ccl constrain pfm pmm csub cu cp cr).db
          = ccl.db) := by
  constructor
  · intro h
    unfold _handle_login
    split
    · simp
    · rcases h with h | h
      · simp [h]
      · by_cases hlu : lu = ""
        · simp [hlu]
        · simp [h, hlu]
  · intro h
    unfold _handle_create_account
    split
    · simp
    · rcases h with h | h | h | h | ⟨hc, hv⟩ <;>
        by_cases h1 : cu = "" <;> by_cases h2 : cp = "" <;> by_cases h3 : cr = "" <;>
        by_cases h4 : cp = cr <;> simp_all

/-- C8 witness: an empty login username and a create-account retype mismatch,
both blocked with no store call. -/
theorem local_validation_blocks_store_calls_witness :
    ((_handle_login 3 1 2 _reset_authentication ⟨[], none, none⟩ "wrong" true "" "pw").events = []
        ∧ (_handle_login 3 1 2 _reset_authentication ⟨[], none, none⟩
            "wrong" true "" "pw").session = _reset_authentication
        ∧ (_handle_login 3 1 2 _reset_authentication ⟨[], none, none⟩
            "wrong" true "" "pw").db = [])
      ∧ ((_handle_create_account 3 1 _reset_authentication ⟨[], none, none⟩ true
            "weak" "mismatch" true "bob" "Abc12345!" "Abc12345?").events = []
        ∧ (_handle_create_account 3 1 _reset_authentication ⟨[], none, none⟩ true
            "weak" "mismatch" true "bob" "Abc12345!" "Abc12345?").session = _reset_authentication
        ∧ (_handle_create_account 3 1 _reset_authentication ⟨[], none, none⟩ true
            "weak" "mismatch" true "bob" "Abc12345!" "Abc12345?").db = []) :=
  ⟨(local_validation_blocks_store_calls 3 1 2 1 _reset_authentication _reset_authentication
      ⟨[], none, none⟩ ⟨[], none, none⟩ "wrong" "weak" "mismatch" true true true
      "" "pw" "bob" "Abc12345!" "Abc12345?").1 (Or.inl rfl),
    (local_validation_blocks_store_calls 3 1 2 1 _reset_authentication _reset_authentication
      ⟨[], none, none⟩ ⟨[], none, none⟩ "wrong" "weak" "mismatch" true true true
      "" "pw" "bob" "Abc12345!" "Abc12345?").2
      (Or.inr (Or.inr (Or.inr (Or.inl (by decide)))))⟩

/-- C7: a create-account submission that fails with a repository error — in
particular a duplicate username — leaves the session unauthenticated, surfaces
the store's error message verbatim, and does not mutate the store (the existing
credential row is unchanged); when no fault is injected the error is exactly
the duplicate-username error of the uniqueness constraint. -/
theorem create_account_store_error
    (params salt : Nat) (sess : Session) (cl : Client)
    (pfm pmm : String) (constrain : Bool) (username password retype m : String)
    (hauth : sess.authenticated = false)
    (hu : username ≠ "") (hp : password ≠ "") (hr : retype ≠ "")
    (hmatch : password = retype)
    (hpolicy : constrain = false ∨ _validate_password password 8 defaultSpecialChars = true)
    (hins : clientInsert cl username (generate_pwd_hash params salt password) none
      = .error m) :
    (_handle_create_account params salt sess cl constrain pfm pmm true
        username password retype).session = _reset_authentication
      ∧ (_handle_create_account params salt sess cl constrain pfm pmm true
          username password retype).db = cl.db
      ∧ (_handle_create_account params salt sess cl constrain pfm pmm true
          username password retype).message = some m
      ∧ (_handle_create_account params salt sess cl constrain pfm pmm true
          username password retype).rerun = false
      ∧ (cl.insertError = none →
          cl.db.any (fun x => x.username == username) = true ∧ m = dupKeyMsg username) := by
  have hdup : cl.insertError = none →
      cl.db.any (fun x => x.username == username) = true ∧ m = dupKeyMsg username := by
    intro hnone
    unfold clientInsert at hins
    rw [hnone] at hins
    unfold dbInsert at hins
    by_cases hany : cl.db.any (fun x => x.username == username) = true
    · rw [if_pos hany] at hins
      exact ⟨hany, (Except.error.injEq _ _).mp hins |>.symm⟩
    · rw [if_neg hany] at hins
      exact absurd hins (by simp)
  have hbe : (password != retype) = false := by simp [hmatch]
  refine ⟨?_, ?_, ?_, ?_, hdup⟩ <;>
    (unfold _handle_create_account
     rcases hpolicy with hc | hv
     · simp [hauth, hu, hp, hr, hbe, hc, hins]
     · simp [hauth, hu, hp, hr, hbe, hv, hins])

/-- C7 witness: duplicate username `"alice"` — session unauthenticated, store
unchanged, duplicate-key message surfaced. -/
theorem create_account_store_error_witness :
    (_handle_create_account 3 1 _reset_authentication
        ⟨[{ username := "alice", password := "h", role := none }], none, none⟩
        false "weak" "mismatch" true "alice" "pw" "pw").session = _reset_authentication
      ∧ (_handle_create_account 3 1 _reset_authentication
          ⟨[{ username := "alice", password := "h", role := none }], none, none⟩
          false "weak" "mismatch" true "alice" "pw" "pw").db
        = [{ username := "alice", password := "h", role := none }]
      ∧ (_handle_create_account 3 1 _reset_authentication
          ⟨[{ username := "alice", password := "h", role := none }], none, none⟩
          false "weak" "mismatch" true "alice" "pw" "pw").message
        = some (dupKeyMsg "alice") :=
  ⟨(create_account_store_error 3 1 _reset_authentication
      ⟨[{ username := "alice", password := "h", role := none }], none, none⟩
      "weak" "mismatch" false "alice" "pw" "pw" (dupKeyMsg "alice")
      rfl (by decide) (by decide) (by decide) rfl (Or.inl rfl) rfl).1,
    (create_account_store_error 3 1 _reset_authentication
      ⟨[{ username := "alice", password := "h", role := none }], none, none⟩
      "weak" "mismatch" false "alice" "pw" "pw" (dupKeyMsg "alice")
      rfl (by decide) (by decide) (by decide) rfl (Or.inl rfl) rfl).2.1,
    (create_account_store_error 3 1 _reset_authentication
      ⟨[{ username := "alice", password := "h", role := none }], none, none⟩
      "weak" "mismatch" false "alice" "pw" "pw" (dupKeyMsg "alice")
      rfl (by decide) (by decide) (by decide) rfl (Or.inl rfl) rfl).2.2.1⟩

theorem step_preserves_inv (cfg : ConfigR) (s : StateR) (ev : UiEvent)
    (ih : s.session.authenticated = false →
      s.session.username = none ∧ s.session.authenticated_role = none) :
    (loginFormStep cfg s ev).session.authenticated = false →
      (loginFormStep cfg s ev).session.username = none
        ∧ (loginFormStep cfg s ev).session.authenticated_role = none := by
  by_cases ha : s.session.authenticated
  · unfold loginFormStep
    simp [ha]
  · simp only [Bool.not_eq_true] at ha
    obtain ⟨hu, hr⟩ := ih ha
    unfold loginFormStep
    cases ev
    all_goals try simp [ha]
    all_goals try (repeat' split)
    all_goals simp_all [login_success]

theorem reachable_inv (cfg : ConfigR) (s : StateR) (h : ReachableR cfg s) :
    s.session.authenticated = false →
      s.session.username = none ∧ s.session.authenticated_role = none := by
  induction h with
  | init db => exact fun _ => ⟨rfl, rfl⟩
  | step s ev hs ih => exact step_preserves_inv _ s ev ih

theorem sessionR_eq_init (s : SessionR) (ha : s.authenticated = false)
    (hu : s.username = none) (hr : s.authenticated_role = none) : s = initSessionR := by
  cases s
  simp_all [initSessionR]

/-- C6: in every reachable state of the `login_form` interaction,
`authenticated = false` implies that `username` and `role` are absent; and any
processed event that ends unauthenticated — in particular a failed login or a
failed create-account attempt — leaves the session equal to its initial
unauthenticated state. -/
theorem session_reset_invariant (cfg : ConfigR) (s : StateR) (h : ReachableR cfg s) :
    (s.session.authenticated = false →
      s.session.username = none ∧ s.session.authenticated_role = none)
    ∧ ∀ ev : UiEvent, (loginFormStep cfg s ev).session.authenticated = false →
        (loginFormStep cfg s ev).session = initSessionR := by
  constructor
  · exact reachable_inv cfg s h
  · intro ev hf
    obtain ⟨hu, hr⟩ := reachable_inv cfg _ (.step s ev h) hf
    exact sessionR_eq_init _ hf hu hr

/-- C6 witness: from the initial state, a failed login (empty table) ends in
exactly the initial unauthenticated session. -/
theorem session_reset_invariant_witness :
    (loginFormStep ⟨3, false, "user", true⟩ ⟨initSessionR, []⟩
      (.loginSubmit "alice" "pw" 0 0)).session = initSessionR :=
  (session_reset_invariant ⟨3, false, "user", true⟩ ⟨initSessionR, []⟩ (.init [])).2
    (.loginSubmit "alice" "pw" 0 0) (by decide)
